import Mathlib

/-!
Verification of the recipe-api data-access contract.

The repository exposes five CRUD operations over a single `recipes` table
through three near-duplicate Express handler files:

* `src/unnamed/part_003`  — Vercel-Postgres variant (raw SQL);
* `src/api/index.js`      — strict Prisma variant (validates all four
  required fields on PUT as well as POST, trims on POST);
* `src/api/index.mjs`     — ESM Prisma variant (no validation on PUT,
  Prisma skips `undefined` data fields).

The embedding below models the store as a list of rows plus a counter that
drives the id generator (the code uses `uuidv4()` / Prisma-generated ids;
we model this as an injective generator over a per-store counter, which is
the uniqueness contract those generators provide).  Request-body fields
arrive as `Option String` (`none` = absent key); JavaScript string
truthiness (`!x` rejects both `undefined` and `""`) is captured by
`truthy`.  Storage failures (the `catch (error)` blocks) are modelled by an
explicit `Option String` parameter holding the thrown error's `message`.
-/

/-- A persisted recipe row: columns of the `recipes` table
(`id, title, description, ingredients, steps, image_url`). -/
structure Recipe where
  id : String
  title : String
  description : String
  ingredients : String
  steps : String
  image_url : String
deriving Repr, DecidableEq

/-- A request body for POST/PUT: the five fields destructured from
`req.body`; `none` models an absent key (`undefined`). -/
structure RecipeInput where
  title : Option String
  description : Option String
  ingredients : Option String
  steps : Option String
  image_url : Option String
deriving Repr, DecidableEq

/-- JavaScript truthiness of a string-or-undefined value: `undefined` and
`""` are falsy, every other string is truthy. -/
def truthy (o : Option String) : Bool :=
  !(o.getD "" == "")

/-- The JavaScript expression `x || d` for a string-or-undefined `x` and a
string default `d`: yields `d` when `x` is absent or empty. -/
def jsOr (o : Option String) (d : String) : String :=
  match o with
  | none => d
  | some v => if v = "" then d else v

/-- The shared validation check `!title || !description || !ingredients ||
!steps` (negated): true iff all four required fields are present and
non-empty. -/
def validInput (i : RecipeInput) : Bool :=
  truthy i.title && truthy i.description && truthy i.ingredients && truthy i.steps

/-- Response bodies the handlers produce: a recipe, a recipe array, a
`{ message: ... }` object, an `{ error: ... }` object, or an empty body. -/
inductive Body where
  | recipe : Recipe → Body
  | recipes : List Recipe → Body
  | message : String → Body
  | errorMsg : String → Body
  | empty : Body
deriving Repr, DecidableEq

/-- An HTTP response: status code and body. -/
structure Response where
  status : Nat
  body : Body
deriving Repr, DecidableEq

/-- The backing store: the rows of the `recipes` table in insertion order,
plus the counter driving the fresh-id generator. -/
structure Store where
  rows : List Recipe
  nextId : Nat
deriving Repr, DecidableEq

/-- The id generator: models `uuidv4()` as an injective function of the
store's counter (the contract the UUID library provides is freshness of
each generated id, which the counter makes explicit). -/
def genId (n : Nat) : String :=
  String.mk (List.replicate (n + 1) 'u')

/-- A store whose rows all carry ids produced by earlier states of the
generator: the invariant `uuidv4()` maintains for us. -/
def FreshState (s : Store) : Prop :=
  ∀ r ∈ s.rows, ∃ k, k < s.nextId ∧ r.id = genId k

/-- The catch-all storage failure handler shared by every route of the
Vercel-Postgres variant: `res.status(500).json({ error: error.message })`. -/
def storageFailureResponse (errMessage : String) : Response :=
  { status := 500, body := Body.errorMsg errMessage }

/-- Whether a response is the shape produced by the storage-failure path
(`{ error: ... }` body), as opposed to a 404 `{ message: ... }` body. -/
def isStorageFailureResponse (resp : Response) : Bool :=
  match resp.body with
  | Body.errorMsg _ => true
  | _ => false

/-- GET `/api/recipes` of `src/unnamed/part_003`: `SELECT * FROM recipes`
inside `try`, 500 `{ error: error.message }` on a thrown storage error. -/
def listRecipesE (s : Store) (fail : Option String) : Response × Store :=
  match fail with
  | some m => (storageFailureResponse m, s)
  | none => ({ status := 200, body := Body.recipes s.rows }, s)

/-- GET `/api/recipes` on the success path. -/
def listRecipes (s : Store) : Response × Store :=
  listRecipesE s none

/-- GET `/api/recipes/:id` of `src/unnamed/part_003`:
`SELECT * FROM recipes WHERE id = ${req.params.id}`; 404
`{ message: 'Recipe not found' }` when zero rows match, else the first row. -/
def getRecipeE (s : Store) (id : String) (fail : Option String) : Response × Store :=
  match fail with
  | some m => (storageFailureResponse m, s)
  | none =>
    match s.rows.filter (fun r => r.id == id) with
    | [] => ({ status := 404, body := Body.message "Recipe not found" }, s)
    | r :: _ => ({ status := 200, body := Body.recipe r }, s)

/-- GET `/api/recipes/:id` on the success path. -/
def getRecipe (s : Store) (id : String) : Response × Store :=
  getRecipeE s id none

/-- The record the POST handler of `src/unnamed/part_003` builds:
`{ id: uuidv4(), title, description, ingredients, steps,
image_url: image_url || '' }`. -/
def createdRecipe (s : Store) (i : RecipeInput) : Recipe :=
  { id := genId s.nextId,
    title := i.title.getD "",
    description := i.description.getD "",
    ingredients := i.ingredients.getD "",
    steps := i.steps.getD "",
    image_url := jsOr i.image_url "" }

/-- POST `/api/recipes` of `src/unnamed/part_003`: validation of the four
required fields happens before the `try` block (hence before any storage
access); on success an INSERT appends the new row and the handler answers
201 with the built record. -/
def createRecipeE (s : Store) (i : RecipeInput) (fail : Option String) : Response × Store :=
  if validInput i = false then
    ({ status := 400,
       body := Body.message "Missing required fields: title, description, ingredients, steps" }, s)
  else
    match fail with
    | some m => (storageFailureResponse m, s)
    | none =>
      ({ status := 201, body := Body.recipe (createdRecipe s i) },
       { rows := s.rows ++ [createdRecipe s i], nextId := s.nextId + 1 })

/-- POST `/api/recipes` on the success path. -/
def createRecipe (s : Store) (i : RecipeInput) : Response × Store :=
  createRecipeE s i none

/-- The merged record the PUT handler of `src/unnamed/part_003` builds from
the current row: `newTitle = title || current.title`, likewise for the
other four columns, with `id` taken from the route parameter. -/
def mergeRecipe (i : RecipeInput) (current : Recipe) (id : String) : Recipe :=
  { id := id,
    title := jsOr i.title current.title,
    description := jsOr i.description current.description,
    ingredients := jsOr i.ingredients current.ingredients,
    steps := jsOr i.steps current.steps,
    image_url := jsOr i.image_url current.image_url }

/-- PUT `/api/recipes/:id` of `src/unnamed/part_003`: inside `try`, an
existence SELECT (404 on zero rows), then an UPDATE setting the five
columns of every row matching the id to the merged values, answering 200
with the merged record. -/
def updateRecipeE (s : Store) (id : String) (i : RecipeInput) (fail : Option String) :
    Response × Store :=
  match fail with
  | some m => (storageFailureResponse m, s)
  | none =>
    match s.rows.filter (fun r => r.id == id) with
    | [] => ({ status := 404, body := Body.message "Recipe not found" }, s)
    | current :: _ =>
      let merged := mergeRecipe i current id
      ({ status := 200, body := Body.recipe merged },
       { s with rows := s.rows.map (fun r => if r.id == id then merged else r) })

/-- PUT `/api/recipes/:id` on the success path. -/
def updateRecipe (s : Store) (id : String) (i : RecipeInput) : Response × Store :=
  updateRecipeE s id i none

/-- DELETE `/api/recipes/:id` of `src/unnamed/part_003`:
`DELETE FROM recipes WHERE id = ...` inside `try`; 404 when
`result.rowCount === 0`, else 204 with empty body. -/
def deleteRecipeE (s : Store) (id : String) (fail : Option String) : Response × Store :=
  match fail with
  | some m => (storageFailureResponse m, s)
  | none =>
    let rowCount := s.rows.countP (fun r => r.id == id)
    let s2 : Store := { s with rows := s.rows.filter (fun r => !(r.id == id)) }
    if rowCount == 0 then
      ({ status := 404, body := Body.message "Recipe not found" }, s2)
    else
      ({ status := 204, body := Body.empty }, s2)

/-- DELETE `/api/recipes/:id` on the success path. -/
def deleteRecipe (s : Store) (id : String) : Response × Store :=
  deleteRecipeE s id none

/-- PUT `/api/recipes/:id` of the strict Prisma variant
(`src/api/index.js`): rejects the request with 400 when any of the four
required fields is absent or falsy, before any storage access; otherwise
checks existence, then updates the four fields verbatim and `image_url`
via `image_url || existingRecipe.image_url || ''` (the trailing `|| ''`
is the identity here because stored columns are strings).  A thrown
storage error answers 500 with `error.message || 'Internal server error'`. -/
def updateRecipeStrictE (s : Store) (id : String) (i : RecipeInput) (fail : Option String) :
    Response × Store :=
  if validInput i = false then
    ({ status := 400,
       body := Body.message "Missing required fields: title, description, ingredients, steps" }, s)
  else
    match fail with
    | some m =>
      ({ status := 500,
         body := Body.errorMsg (if m = "" then "Internal server error" else m) }, s)
    | none =>
      match s.rows.filter (fun r => r.id == id) with
      | [] => ({ status := 404, body := Body.message "Recipe not found" }, s)
      | existing :: _ =>
        let updated : Recipe :=
          { id := id,
            title := i.title.getD "",
            description := i.description.getD "",
            ingredients := i.ingredients.getD "",
            steps := i.steps.getD "",
            image_url := jsOr i.image_url existing.image_url }
        ({ status := 200, body := Body.recipe updated },
         { s with rows := s.rows.map (fun r => if r.id == id then updated else r) })

/-- PUT `/api/recipes/:id` of the strict Prisma variant, success path. -/
def updateRecipeStrict (s : Store) (id : String) (i : RecipeInput) : Response × Store :=
  updateRecipeStrictE s id i none

/-- PUT `/api/recipes/:id` of the ESM Prisma variant
(`src/api/index.mjs`): no validation and no merge; the handler passes the
destructured body fields straight to `prisma.recipe.update`.  The Prisma
client skips `undefined` data fields (an absent field keeps its stored
value) but writes every present field verbatim, including empty strings;
a missing row raises `P2025`, mapped to 404. -/
def updateRecipeMjs (s : Store) (id : String) (i : RecipeInput) : Response × Store :=
  match s.rows.filter (fun r => r.id == id) with
  | [] => ({ status := 404, body := Body.message "Recipe not found" }, s)
  | current :: _ =>
    let updated : Recipe :=
      { id := current.id,
        title := i.title.getD current.title,
        description := i.description.getD current.description,
        ingredients := i.ingredients.getD current.ingredients,
        steps := i.steps.getD current.steps,
        image_url := i.image_url.getD current.image_url }
    ({ status := 200, body := Body.recipe updated },
     { s with rows := s.rows.map (fun r => if r.id == id then updated else r) })

/-! ### Sample data for concrete witnesses -/

/-- A creation body with all five fields present and non-empty. -/
def inputFull : RecipeInput :=
  ⟨some "Spaghetti Carbonara", some "A classic Italian pasta dish",
   some "Spaghetti, Eggs, Guanciale", some "Boil pasta, combine all.",
   some "https://example.com/spaghetti.jpg"⟩

/-- A creation body with the four required fields and no `image_url`. -/
def inputNoImage : RecipeInput :=
  ⟨some "Toast", some "Bread, toasted", some "Bread", some "Toast the bread.", none⟩

/-- A body missing the required `title` key. -/
def inputMissingTitle : RecipeInput :=
  ⟨none, some "d", some "g", some "s", none⟩

/-- A partial-update body carrying only a new title. -/
def inputOnlyTitle : RecipeInput :=
  ⟨some "New title", none, none, none, none⟩

/-- A body whose `title` is present but the empty string (falsy in JS). -/
def inputEmptyTitle : RecipeInput :=
  ⟨some "", none, none, none, none⟩

/-- A stored row with the first generated id. -/
def recipeA : Recipe :=
  ⟨genId 0, "Old title", "Old description", "Old ingredients", "Old steps", "old.png"⟩

/-- A store holding exactly `recipeA`, counter past its id. -/
def storeA : Store := ⟨[recipeA], 1⟩

/-! ### Helper lemmas -/

theorem jsOr_eq_ite (o : Option String) (d : String) :
    jsOr o d = if o.getD "" = "" then d else o.getD "" := by
  cases o with
  | none => simp [jsOr]
  | some v => simp [jsOr]

theorem jsOr_jsOr (o : Option String) (d : String) :
    jsOr o (jsOr o d) = jsOr o d := by
  cases o with
  | none => rfl
  | some v =>
    by_cases hv : v = "" <;> simp [jsOr, hv]

theorem mergeRecipe_idem (i : RecipeInput) (c : Recipe) (id : String) :
    mergeRecipe i (mergeRecipe i c id) id = mergeRecipe i c id := by
  simp [mergeRecipe, jsOr_jsOr]

theorem validInput_eq_false_of (i : RecipeInput)
    (h : i.title.getD "" = "" ∨ i.description.getD "" = "" ∨
         i.ingredients.getD "" = "" ∨ i.steps.getD "" = "") :
    validInput i = false := by
  rcases h with h | h | h | h <;> simp [validInput, truthy, h]

theorem validInput_getD_ne (i : RecipeInput) (hv : validInput i = true) :
    i.title.getD "" ≠ "" ∧ i.description.getD "" ≠ "" ∧
    i.ingredients.getD "" ≠ "" ∧ i.steps.getD "" ≠ "" := by
  simp [validInput, truthy] at hv
  exact ⟨hv.1.1.1, hv.1.1.2, hv.1.2, hv.2⟩

theorem filter_eq_single_of_nodup (rows : List Recipe) (r : Recipe) (id : String)
    (hr : r ∈ rows) (hid : r.id = id)
    (hnd : (rows.map Recipe.id).Nodup) :
    rows.filter (fun x => x.id == id) = [r] := by
  induction rows with
  | nil => cases hr
  | cons a t ih =>
    have hnd2 : (t.map Recipe.id).Nodup := (List.nodup_cons.mp hnd).2
    have hna : a.id ∉ t.map Recipe.id := (List.nodup_cons.mp hnd).1
    rcases List.mem_cons.mp hr with rfl | hrt
    · have ht : t.filter (fun x => x.id == id) = [] := by
        rw [List.filter_eq_nil_iff]
        intro x hx hbeq
        exact hna (hid ▸ (beq_iff_eq.mp hbeq) ▸ List.mem_map_of_mem Recipe.id hx)
      simp [List.filter_cons, hid, ht]
    · have hane : (a.id == id) = false := by
        rw [beq_eq_false_iff_ne]
        intro hai
        exact hna (hai ▸ hid ▸ List.mem_map_of_mem Recipe.id hrt)
      simp [List.filter_cons, hane]
      exact ih hrt hnd2

theorem genId_injective : Function.Injective genId := by
  intro m n h
  have h2 := congrArg (fun s : String => s.data.length) h
  simpa [genId] using h2

theorem filter_map_update (rows : List Recipe) (id : String) (m : Recipe)
    (hm : (m.id == id) = true) :
    (rows.map (fun r => if r.id == id then m else r)).filter (fun r => r.id == id)
      = (rows.filter (fun r => r.id == id)).map (fun _ => m) := by
  induction rows with
  | nil => rfl
  | cons a t ih =>
    by_cases ha : (a.id == id) = true
    · have hfa : (if a.id == id then m else a) = m := if_pos ha
      calc ((a :: t).map (fun r => if r.id == id then m else r)).filter
              (fun r => r.id == id)
          = (m :: t.map (fun r => if r.id == id then m else r)).filter
              (fun r => r.id == id) := by rw [List.map_cons, hfa]
        _ = m :: (t.map (fun r => if r.id == id then m else r)).filter
              (fun r => r.id == id) := List.filter_cons_of_pos hm
        _ = m :: (t.filter (fun r => r.id == id)).map (fun _ => m) := by rw [ih]
        _ = ((a :: t).filter (fun r => r.id == id)).map (fun _ => m) := by
              rw [List.filter_cons]
              simp [ha]
    · have ha2 : ¬ ((a.id == id) = true) := ha
      have hfa : (if a.id == id then m else a) = a := if_neg ha2
      calc ((a :: t).map (fun r => if r.id == id then m else r)).filter
              (fun r => r.id == id)
          = (a :: t.map (fun r => if r.id == id then m else r)).filter
              (fun r => r.id == id) := by rw [List.map_cons, hfa]
        _ = (t.map (fun r => if r.id == id then m else r)).filter
              (fun r => r.id == id) := List.filter_cons_of_neg ha2
        _ = (t.filter (fun r => r.id == id)).map (fun _ => m) := ih
        _ = ((a :: t).filter (fun r => r.id == id)).map (fun _ => m) := by
              rw [List.filter_cons]
              simp [ha2]

theorem map_update_twice (rows : List Recipe) (id : String) (m : Recipe)
    (hm : (m.id == id) = true) :
    (rows.map (fun r => if r.id == id then m else r)).map
        (fun r => if r.id == id then m else r)
      = rows.map (fun r => if r.id == id then m else r) := by
  rw [List.map_map]
  apply List.map_congr_left
  intro r _
  by_cases hr : (r.id == id) = true
  · simp [Function.comp, hr, hm]
  · have hr2 : (r.id == id) = false := by rwa [Bool.not_eq_true] at hr
    simp [Function.comp, hr2]

theorem map_update_id (rows : List Recipe) (id : String) (m : Recipe)
    (hm : m.id = id) :
    (rows.map (fun r => if r.id == id then m else r)).map Recipe.id
      = rows.map Recipe.id := by
  rw [List.map_map]
  apply List.map_congr_left
  intro r _
  by_cases hr : (r.id == id) = true
  · have hr3 : r.id = id := beq_iff_eq.mp hr
    simp [Function.comp, hr, hm, hr3]
  · have hr2 : (r.id == id) = false := by rwa [Bool.not_eq_true] at hr
    simp [Function.comp, hr2]

/-! ### Claim theorems -/

/-- C6: update is idempotent — applying `update(id, input)` to the state it
itself produced returns the same response and leaves the store in the same
state as applying it once (the Vercel-Postgres PUT handler, for every
store, id and input, whether or not the row exists). -/
theorem update_idempotent (s : Store) (id : String) (i : RecipeInput) :
    updateRecipe (updateRecipe s id i).2 id i = updateRecipe s id i := by
  unfold updateRecipe updateRecipeE
  cases h : s.rows.filter (fun r => r.id == id) with
  | nil => simp [h]
  | cons c rest =>
    simp only [h]
    have hmid : ((mergeRecipe i c id).id == id) = true := by
      rw [beq_iff_eq]; rfl
    have hfl := filter_map_update s.rows id (mergeRecipe i c id) hmid
    rw [h, List.map_cons] at hfl
    simp only [hfl, mergeRecipe_idem,
      map_update_twice s.rows id (mergeRecipe i c id) hmid]

/-- C8: a recipe's id is never reassigned by update — for every store, id
and input, the per-row ids of the store after the PUT handler runs are
exactly the per-row ids before it, regardless of the input's contents. -/
theorem update_never_reassigns_id (s : Store) (id : String) (i : RecipeInput) :
    (updateRecipe s id i).2.rows.map Recipe.id = s.rows.map Recipe.id := by
  unfold updateRecipe updateRecipeE
  cases h : s.rows.filter (fun r => r.id == id) with
  | nil => simp [h]
  | cons c rest =>
    simp only [h]
    exact map_update_id s.rows id (mergeRecipe i c id) rfl

/-- C3: when any of the four required fields is absent or the empty string,
the POST handler reports the validation error (400) before any storage
call — uniformly in the storage outcome `fail` — and the stored set of
recipes is unchanged. -/
theorem create_validation_short_circuits (s : Store) (i : RecipeInput)
    (fail : Option String)
    (h : i.title.getD "" = "" ∨ i.description.getD "" = "" ∨
         i.ingredients.getD "" = "" ∨ i.steps.getD "" = "") :
    createRecipeE s i fail =
      ({ status := 400,
         body := Body.message
           "Missing required fields: title, description, ingredients, steps" },
       s) ∧
    (createRecipeE s i fail).2.rows = s.rows := by
  have hv := validInput_eq_false_of i h
  refine ⟨?_, ?_⟩ <;> simp [createRecipeE, hv]

/-- Witness for C3 at a concrete store and a body missing its title. -/
theorem create_validation_short_circuits_witness :
    (inputMissingTitle.title.getD "" = "" ∨
     inputMissingTitle.description.getD "" = "" ∨
     inputMissingTitle.ingredients.getD "" = "" ∨
     inputMissingTitle.steps.getD "" = "") ∧
    (createRecipeE storeA inputMissingTitle none =
      ({ status := 400,
         body := Body.message
           "Missing required fields: title, description, ingredients, steps" },
       storeA) ∧
     (createRecipeE storeA inputMissingTitle none).2.rows = storeA.rows) :=
  ⟨Or.inl rfl,
   create_validation_short_circuits storeA inputMissingTitle none (Or.inl rfl)⟩

/-- C10: the strict Prisma variant's PUT handler rejects any request in
which one of the four required fields is absent or falsy, answering 400
before any storage access (uniformly in the storage outcome `fail`) and
leaving the store untouched, so a partial update is never applied by this
variant. -/
theorem strict_update_rejects_partial_input (s : Store) (id : String)
    (i : RecipeInput) (fail : Option String)
    (h : i.title.getD "" = "" ∨ i.description.getD "" = "" ∨
         i.ingredients.getD "" = "" ∨ i.steps.getD "" = "") :
    updateRecipeStrictE s id i fail =
      ({ status := 400,
         body := Body.message
           "Missing required fields: title, description, ingredients, steps" },
       s) := by
  have hv := validInput_eq_false_of i h
  simp [updateRecipeStrictE, hv]

/-- Witness for C10: a title-only partial update against an existing row is
rejected with 400 and the store is unchanged. -/
theorem strict_update_rejects_partial_input_witness :
    (inputOnlyTitle.title.getD "" = "" ∨
     inputOnlyTitle.description.getD "" = "" ∨
     inputOnlyTitle.ingredients.getD "" = "" ∨
     inputOnlyTitle.steps.getD "" = "") ∧
    updateRecipeStrictE storeA (genId 0) inputOnlyTitle none =
      ({ status := 400,
         body := Body.message
           "Missing required fields: title, description, ingredients, steps" },
       storeA) :=
  ⟨Or.inr (Or.inl rfl),
   strict_update_rejects_partial_input storeA (genId 0) inputOnlyTitle none
     (Or.inr (Or.inl rfl))⟩

/-- C2 counterexample: the claim says the 500 body carries only a generic
message and not the underlying error's message text, but the catch blocks
answer `{ error: error.message }` — the caller-visible body is exactly the
internal storage message, and two different internal failures produce two
different caller-visible bodies. -/
theorem storage_error_response_leaks_message :
    (listRecipesE ⟨[], 0⟩ (some "connect ECONNREFUSED 127.0.0.1:5432")).1.body
        = Body.errorMsg "connect ECONNREFUSED 127.0.0.1:5432" ∧
    (listRecipesE ⟨[], 0⟩ (some "connect ECONNREFUSED 127.0.0.1:5432")).1.body
        ≠ (listRecipesE ⟨[], 0⟩ (some "password authentication failed")).1.body :=
  ⟨rfl, by decide⟩

/-- C2 (amended): every operation maps a backing-store failure to a
500-class response and leaves the store unchanged, but the response body
exposes the underlying error's message verbatim
(`{ error: error.message }`) rather than a generic message. -/
theorem storage_error_maps_to_500_with_message (s : Store) (id : String)
    (i : RecipeInput) (m : String) (hv : validInput i = true) :
    listRecipesE s (some m) = (storageFailureResponse m, s) ∧
    getRecipeE s id (some m) = (storageFailureResponse m, s) ∧
    createRecipeE s i (some m) = (storageFailureResponse m, s) ∧
    updateRecipeE s id i (some m) = (storageFailureResponse m, s) ∧
    deleteRecipeE s id (some m) = (storageFailureResponse m, s) ∧
    storageFailureResponse m = { status := 500, body := Body.errorMsg m } := by
  refine ⟨rfl, rfl, ?_, rfl, rfl, rfl⟩
  simp [createRecipeE, hv]

/-- Witness for the amended C2 at a concrete store, id, valid body and
failure message. -/
theorem storage_error_maps_to_500_with_message_witness :
    validInput inputFull = true ∧
    (listRecipesE storeA (some "connection lost") =
        (storageFailureResponse "connection lost", storeA) ∧
     getRecipeE storeA (genId 0) (some "connection lost") =
        (storageFailureResponse "connection lost", storeA) ∧
     createRecipeE storeA inputFull (some "connection lost") =
        (storageFailureResponse "connection lost", storeA) ∧
     updateRecipeE storeA (genId 0) inputFull (some "connection lost") =
        (storageFailureResponse "connection lost", storeA) ∧
     deleteRecipeE storeA (genId 0) (some "connection lost") =
        (storageFailureResponse "connection lost", storeA) ∧
     storageFailureResponse "connection lost" =
        { status := 500, body := Body.errorMsg "connection lost" }) :=
  ⟨by decide,
   storage_error_maps_to_500_with_message storeA (genId 0) inputFull
     "connection lost" (by decide)⟩

/-- C4: delete reports NotFound (404) and leaves the store unchanged when
no stored recipe has the given identifier; on an existing identifier it
answers 204 with no content and removes the row, after which a second
delete of the same id reports NotFound and a getById of it reports
NotFound. -/
theorem delete_semantics (s : Store) (id missingId : String)
    (hex : ∃ r ∈ s.rows, r.id = id)
    (hmiss : ∀ r ∈ s.rows, r.id ≠ missingId) :
    deleteRecipe s missingId =
      ({ status := 404, body := Body.message "Recipe not found" }, s) ∧
    (deleteRecipe s id).1 = { status := 204, body := Body.empty } ∧
    (deleteRecipe s id).2.rows = s.rows.filter (fun r => !(r.id == id)) ∧
    (deleteRecipe (deleteRecipe s id).2 id).1 =
      { status := 404, body := Body.message "Recipe not found" } ∧
    (getRecipe (deleteRecipe s id).2 id).1 =
      { status := 404, body := Body.message "Recipe not found" } := by
  have hmisc : s.rows.countP (fun r => r.id == missingId) = 0 := by
    rw [List.countP_eq_zero]
    intro r hr
    simpa using hmiss r hr
  have hfiltm : s.rows.filter (fun r => !(r.id == missingId)) = s.rows := by
    rw [List.filter_eq_self]
    intro r hr
    simpa using hmiss r hr
  have hcpos : s.rows.countP (fun r => r.id == id) ≠ 0 := by
    intro h0
    obtain ⟨r, hr, hrid⟩ := hex
    exact List.countP_eq_zero.mp h0 r hr (by simpa using hrid)
  have hcbeq : (s.rows.countP (fun r => r.id == id) == 0) = false :=
    beq_eq_false_iff_ne.mpr hcpos
  have hrows : (deleteRecipe s id).2.rows
      = s.rows.filter (fun r => !(r.id == id)) := by
    by_cases hc : (s.rows.countP (fun r => r.id == id) == 0) = true <;>
      simp [deleteRecipe, deleteRecipeE, hc]
  have hcnt2 : (deleteRecipe s id).2.rows.countP (fun r => r.id == id) = 0 := by
    rw [hrows, List.countP_eq_zero]
    intro r hr
    simpa using (List.mem_filter.mp hr).2
  have hfilnil : (deleteRecipe s id).2.rows.filter (fun r => r.id == id) = [] := by
    rw [List.filter_eq_nil_iff]
    intro r hr
    rw [hrows] at hr
    simpa using (List.mem_filter.mp hr).2
  refine ⟨?_, ?_, hrows, ?_, ?_⟩
  · unfold deleteRecipe deleteRecipeE
    simp [hmisc, hfiltm]
  · unfold deleteRecipe deleteRecipeE
    simp [hcbeq]
  · show (deleteRecipeE (deleteRecipe s id).2 id none).1 = _
    unfold deleteRecipeE
    simp [hcnt2]
  · show (getRecipeE (deleteRecipe s id).2 id none).1 = _
    unfold getRecipeE
    simp [hfilnil]

/-- Witness for C4: deleting the one stored row succeeds with 204, its
removal is visible, and repeating the delete or a lookup reports 404. -/
theorem delete_semantics_witness :
    (∃ r ∈ storeA.rows, r.id = genId 0) ∧
    (∀ r ∈ storeA.rows, r.id ≠ "absent-id") ∧
    (deleteRecipe storeA "absent-id" =
      ({ status := 404, body := Body.message "Recipe not found" }, storeA) ∧
    (deleteRecipe storeA (genId 0)).1 = { status := 204, body := Body.empty } ∧
    (deleteRecipe storeA (genId 0)).2.rows
        = storeA.rows.filter (fun r => !(r.id == genId 0)) ∧
    (deleteRecipe (deleteRecipe storeA (genId 0)).2 (genId 0)).1 =
      { status := 404, body := Body.message "Recipe not found" } ∧
    (getRecipe (deleteRecipe storeA (genId 0)).2 (genId 0)).1 =
      { status := 404, body := Body.message "Recipe not found" }) :=
  ⟨by decide, by decide,
   delete_semantics storeA (genId 0) "absent-id" (by decide) (by decide)⟩

/-- C9: getById answers 200 with the single stored recipe whose identifier
is exactly (string-)equal to the requested id, answers the NotFound
message (404) when no stored recipe has that identifier, and the NotFound
response is distinguishable from a storage-failure response (it is a
`message` body, not an `error` body). -/
theorem getById_exact_match (s : Store) (r : Recipe) (id missingId : String)
    (hr : r ∈ s.rows) (hid : r.id = id)
    (hnd : (s.rows.map Recipe.id).Nodup)
    (hmiss : ∀ x ∈ s.rows, x.id ≠ missingId) :
    getRecipe s id = ({ status := 200, body := Body.recipe r }, s) ∧
    getRecipe s missingId =
      ({ status := 404, body := Body.message "Recipe not found" }, s) ∧
    isStorageFailureResponse (getRecipe s missingId).1 = false ∧
    isStorageFailureResponse (storageFailureResponse "storage down") = true := by
  have hfil := filter_eq_single_of_nodup s.rows r id hr hid hnd
  have hfilm : s.rows.filter (fun x => x.id == missingId) = [] := by
    rw [List.filter_eq_nil_iff]
    intro x hx
    simpa using hmiss x hx
  have h404 : getRecipe s missingId =
      ({ status := 404, body := Body.message "Recipe not found" }, s) := by
    unfold getRecipe getRecipeE
    simp [hfilm]
  refine ⟨?_, h404, ?_, rfl⟩
  · unfold getRecipe getRecipeE
    simp [hfil]
  · rw [h404]
    rfl

/-- Witness for C9 at the one-row store: exact lookup, missing lookup, and
the shape distinction from a storage failure. -/
theorem getById_exact_match_witness :
    recipeA ∈ storeA.rows ∧ recipeA.id = genId 0 ∧
    (storeA.rows.map Recipe.id).Nodup ∧
    (∀ x ∈ storeA.rows, x.id ≠ "no-such-id") ∧
    (getRecipe storeA (genId 0) =
      ({ status := 200, body := Body.recipe recipeA }, storeA) ∧
    getRecipe storeA "no-such-id" =
      ({ status := 404, body := Body.message "Recipe not found" }, storeA) ∧
    isStorageFailureResponse (getRecipe storeA "no-such-id").1 = false ∧
    isStorageFailureResponse (storageFailureResponse "storage down") = true) :=
  ⟨by decide, by decide, by decide, by decide,
   getById_exact_match storeA recipeA (genId 0) "no-such-id"
     (by decide) (by decide) (by decide) (by decide)⟩

/-- C5: for a creation body whose four required fields are present and
non-empty, the POST handler generates a fresh id not used by any stored
row, defaults `image_url` to the empty string when it is absent, appends
exactly one new row, and answers 201 with the created record — the same
record that is persisted. -/
theorem create_persists_and_returns (s : Store) (i : RecipeInput)
    (hv : validInput i = true) (hf : FreshState s) :
    createRecipe s i =
      ({ status := 201, body := Body.recipe (createdRecipe s i) },
       { rows := s.rows ++ [createdRecipe s i], nextId := s.nextId + 1 }) ∧
    (createdRecipe s i).id = genId s.nextId ∧
    (createdRecipe s i).id ∉ s.rows.map Recipe.id ∧
    (i.image_url = none → (createdRecipe s i).image_url = "") ∧
    (createRecipe s i).2.rows.length = s.rows.length + 1 ∧
    createdRecipe s i ∈ (createRecipe s i).2.rows := by
  have hmain : createRecipe s i =
      ({ status := 201, body := Body.recipe (createdRecipe s i) },
       { rows := s.rows ++ [createdRecipe s i], nextId := s.nextId + 1 }) := by
    simp [createRecipe, createRecipeE, hv]
  refine ⟨hmain, rfl, ?_, ?_, ?_, ?_⟩
  · intro hmem
    obtain ⟨r, hr, heq⟩ := List.mem_map.mp hmem
    obtain ⟨k, hk, hrid⟩ := hf r hr
    have : k = s.nextId := genId_injective (hrid ▸ heq)
    omega
  · intro habs
    simp [createdRecipe, jsOr, habs]
  · rw [hmain]
    simp
  · rw [hmain]
    simp

/-- Witness for C5: creating from the empty store with a body lacking
`image_url`. -/
theorem create_persists_and_returns_witness :
    validInput inputNoImage = true ∧ FreshState ⟨[], 0⟩ ∧
    (createRecipe ⟨[], 0⟩ inputNoImage =
      ({ status := 201, body := Body.recipe (createdRecipe ⟨[], 0⟩ inputNoImage) },
       { rows := [] ++ [createdRecipe ⟨[], 0⟩ inputNoImage], nextId := 0 + 1 }) ∧
    (createdRecipe ⟨[], 0⟩ inputNoImage).id = genId 0 ∧
    (createdRecipe ⟨[], 0⟩ inputNoImage).id ∉ ([] : List Recipe).map Recipe.id ∧
    (inputNoImage.image_url = none →
      (createdRecipe ⟨[], 0⟩ inputNoImage).image_url = "") ∧
    (createRecipe ⟨[], 0⟩ inputNoImage).2.rows.length = ([] : List Recipe).length + 1 ∧
    createdRecipe ⟨[], 0⟩ inputNoImage ∈ (createRecipe ⟨[], 0⟩ inputNoImage).2.rows) :=
  ⟨by decide, by simp [FreshState],
   create_persists_and_returns ⟨[], 0⟩ inputNoImage (by decide) (by simp [FreshState])⟩

/-- C7: create is not idempotent — two consecutive creations from the same
valid body produce two records with distinct ids (hence distinct records),
the handler echoes each created record, and both rows are present in the
store that a subsequent list() returns. -/
theorem create_not_idempotent (s : Store) (i : RecipeInput)
    (hv : validInput i = true) :
    (createdRecipe s i).id ≠ (createdRecipe (createRecipe s i).2 i).id ∧
    createdRecipe s i ≠ createdRecipe (createRecipe s i).2 i ∧
    (createRecipe s i).1.body = Body.recipe (createdRecipe s i) ∧
    (createRecipe (createRecipe s i).2 i).1.body
      = Body.recipe (createdRecipe (createRecipe s i).2 i) ∧
    (listRecipes (createRecipe (createRecipe s i).2 i).2).1.body
      = Body.recipes (createRecipe (createRecipe s i).2 i).2.rows ∧
    createdRecipe s i ∈ (createRecipe (createRecipe s i).2 i).2.rows ∧
    createdRecipe (createRecipe s i).2 i ∈ (createRecipe (createRecipe s i).2 i).2.rows := by
  have hs1 : (createRecipe s i).2
      = { rows := s.rows ++ [createdRecipe s i], nextId := s.nextId + 1 } := by
    simp [createRecipe, createRecipeE, hv]
  have hids : (createdRecipe s i).id ≠ (createdRecipe (createRecipe s i).2 i).id := by
    rw [hs1]
    intro h
    have h2 := genId_injective h
    simp at h2
  have hs2 : (createRecipe (createRecipe s i).2 i).2
      = { rows := (createRecipe s i).2.rows ++ [createdRecipe (createRecipe s i).2 i],
          nextId := (createRecipe s i).2.nextId + 1 } := by
    simp [createRecipe, createRecipeE, hv]
  refine ⟨hids, fun h => hids (congrArg Recipe.id h), ?_, ?_, rfl, ?_, ?_⟩
  · simp [createRecipe, createRecipeE, hv]
  · simp [createRecipe, createRecipeE, hv]
  · rw [hs2, hs1]
    simp
  · rw [hs2]
    simp

/-- Witness for C7: two creations from the empty store with the same full
body. -/
theorem create_not_idempotent_witness :
    validInput inputFull = true ∧
    ((createdRecipe ⟨[], 0⟩ inputFull).id
        ≠ (createdRecipe (createRecipe ⟨[], 0⟩ inputFull).2 inputFull).id ∧
     createdRecipe ⟨[], 0⟩ inputFull
        ≠ createdRecipe (createRecipe ⟨[], 0⟩ inputFull).2 inputFull ∧
     (createRecipe ⟨[], 0⟩ inputFull).1.body
        = Body.recipe (createdRecipe ⟨[], 0⟩ inputFull) ∧
     (createRecipe (createRecipe ⟨[], 0⟩ inputFull).2 inputFull).1.body
        = Body.recipe (createdRecipe (createRecipe ⟨[], 0⟩ inputFull).2 inputFull) ∧
     (listRecipes (createRecipe (createRecipe ⟨[], 0⟩ inputFull).2 inputFull).2).1.body
        = Body.recipes (createRecipe (createRecipe ⟨[], 0⟩ inputFull).2 inputFull).2.rows ∧
     createdRecipe ⟨[], 0⟩ inputFull
        ∈ (createRecipe (createRecipe ⟨[], 0⟩ inputFull).2 inputFull).2.rows ∧
     createdRecipe (createRecipe ⟨[], 0⟩ inputFull).2 inputFull
        ∈ (createRecipe (createRecipe ⟨[], 0⟩ inputFull).2 inputFull).2.rows) :=
  ⟨by decide, create_not_idempotent ⟨[], 0⟩ inputFull (by decide)⟩

/-- C1 counterexample: the claim is stated for `update` across the
handlers, but the ESM Prisma variant persists a present-but-falsy field
instead of keeping the previous value — updating the stored row (titled
"Old title") with `{ title: "" }` persists an empty title. -/
theorem update_mjs_clears_present_empty_field :
    (updateRecipeMjs storeA (genId 0) inputEmptyTitle).2.rows.map Recipe.title
        = [""] ∧
    recipeA.title = "Old title" ∧
    (updateRecipeMjs storeA (genId 0) inputEmptyTitle).1.body
        = Body.recipe { recipeA with title := "" } := by
  decide

/-- C1 (amended, Vercel-Postgres variant): for the stored recipe with the
requested id, the PUT handler overwrites exactly the fields that are
present and non-empty in the input; every absent or falsy field (including
`image_url`) keeps the previously stored value; the id is unchanged; and
the handler answers 200 with the merged record, which is also what is
persisted. -/
theorem update_merges_nonempty_fields (s : Store) (r : Recipe) (id : String)
    (i : RecipeInput) (hr : r ∈ s.rows) (hid : r.id = id)
    (hnd : (s.rows.map Recipe.id).Nodup) :
    updateRecipe s id i =
      ({ status := 200, body := Body.recipe (mergeRecipe i r id) },
       { rows := s.rows.map (fun x => if x.id == id then mergeRecipe i r id else x),
         nextId := s.nextId }) ∧
    (mergeRecipe i r id).id = r.id ∧
    (mergeRecipe i r id).title =
      (if i.title.getD "" = "" then r.title else i.title.getD "") ∧
    (mergeRecipe i r id).description =
      (if i.description.getD "" = "" then r.description else i.description.getD "") ∧
    (mergeRecipe i r id).ingredients =
      (if i.ingredients.getD "" = "" then r.ingredients else i.ingredients.getD "") ∧
    (mergeRecipe i r id).steps =
      (if i.steps.getD "" = "" then r.steps else i.steps.getD "") ∧
    (mergeRecipe i r id).image_url =
      (if i.image_url.getD "" = "" then r.image_url else i.image_url.getD "") ∧
    mergeRecipe i r id ∈ (updateRecipe s id i).2.rows := by
  have hfil := filter_eq_single_of_nodup s.rows r id hr hid hnd
  have hmain : updateRecipe s id i =
      ({ status := 200, body := Body.recipe (mergeRecipe i r id) },
       { rows := s.rows.map (fun x => if x.id == id then mergeRecipe i r id else x),
         nextId := s.nextId }) := by
    unfold updateRecipe updateRecipeE
    simp [hfil]
  refine ⟨hmain, hid.symm, jsOr_eq_ite i.title r.title,
    jsOr_eq_ite i.description r.description,
    jsOr_eq_ite i.ingredients r.ingredients,
    jsOr_eq_ite i.steps r.steps,
    jsOr_eq_ite i.image_url r.image_url, ?_⟩
  rw [hmain]
  exact List.mem_map.mpr ⟨r, hr, by simp [beq_iff_eq.mpr hid]⟩

/-- Witness for the amended C1: a title-only update of the one stored
row overwrites the title and keeps the other four fields. -/
theorem update_merges_nonempty_fields_witness :
    recipeA ∈ storeA.rows ∧ recipeA.id = genId 0 ∧
    (storeA.rows.map Recipe.id).Nodup ∧
    (updateRecipe storeA (genId 0) inputOnlyTitle =
      ({ status := 200, body := Body.recipe (mergeRecipe inputOnlyTitle recipeA (genId 0)) },
       { rows := storeA.rows.map
           (fun x => if x.id == genId 0 then mergeRecipe inputOnlyTitle recipeA (genId 0) else x),
         nextId := storeA.nextId }) ∧
    (mergeRecipe inputOnlyTitle recipeA (genId 0)).id = recipeA.id ∧
    (mergeRecipe inputOnlyTitle recipeA (genId 0)).title =
      (if inputOnlyTitle.title.getD "" = "" then recipeA.title
       else inputOnlyTitle.title.getD "") ∧
    (mergeRecipe inputOnlyTitle recipeA (genId 0)).description =
      (if inputOnlyTitle.description.getD "" = "" then recipeA.description
       else inputOnlyTitle.description.getD "") ∧
    (mergeRecipe inputOnlyTitle recipeA (genId 0)).ingredients =
      (if inputOnlyTitle.ingredients.getD "" = "" then recipeA.ingredients
       else inputOnlyTitle.ingredients.getD "") ∧
    (mergeRecipe inputOnlyTitle recipeA (genId 0)).steps =
      (if inputOnlyTitle.steps.getD "" = "" then recipeA.steps
       else inputOnlyTitle.steps.getD "") ∧
    (mergeRecipe inputOnlyTitle recipeA (genId 0)).image_url =
      (if inputOnlyTitle.image_url.getD "" = "" then recipeA.image_url
       else inputOnlyTitle.image_url.getD "") ∧
    mergeRecipe inputOnlyTitle recipeA (genId 0)
        ∈ (updateRecipe storeA (genId 0) inputOnlyTitle).2.rows) :=
  ⟨by decide, by decide, by decide,
   update_merges_nonempty_fields storeA recipeA (genId 0) inputOnlyTitle
     (by decide) (by decide) (by decide)⟩
